import Mathlib

/-!
Shallow embedding of the core of the `webSocket` notification server
(`websocket_server/services/connection_manager.py`,
`websocket_server/services/notification_service.py`,
`websocket_server/handlers/shutdown_handler.py`,
`websocket_server/models/message.py`).

Modelling conventions:
* Timestamps (`datetime.now(UTC)`) are integers (seconds); each operation that
  reads the clock takes the current time as an explicit `now : Int` argument.
* A transport handle (`fastapi.WebSocket`) is opaque to the registry; the
  registry only calls `accept` / `send_json` / `close` on it, so a handle is
  modelled by the outcome of those calls: whether `accept` raises, whether
  `send_json` raises, whether `close` raises, plus the user-agent header.
* Python dicts keyed by strings (`self._connections`, `self._connection_info`,
  JSON objects) are association lists in insertion order with unique keys,
  which is exactly the observable behaviour of a Python `dict`.
* `async` methods are sequential functions: every claim checked here is about
  the sequential (single-interleaving) behaviour of one call.
* Exceptions are either typed return values (`Except`) or, where the code
  swallows them (`websocket.close()` inside cleanup), explicit boolean
  outcomes that the model shows are not consulted.
* The model keeps a ghost trace `close_attempts` recording every client id for
  which `_cleanup_failed_connections` invoked `websocket.close()`, so that
  best-effort-close claims are stateable.
-/

namespace WebSocketServer

/-- JSON-like values: the payload dictionaries the Python code passes around
(strings, numbers, nested objects). -/
inductive JValue where
  | jstr (s : String)
  | jnum (n : Int)
  | jobj (fields : List (String × JValue))
deriving Repr

/-- Behavioural model of a `fastapi.WebSocket` handle as seen by the registry:
whether `accept()` raises, whether `send_json(...)` raises, whether `close()`
raises, and the user-agent request header. -/
structure WebSocketHandle where
  acceptRaises : Bool
  sendRaises : Bool
  closeRaises : Bool
  userAgent : Option String
deriving Repr, DecidableEq

/-- Model of `models/message.py` `ConnectionInfo`. -/
structure ConnectionInfo where
  client_id : String
  connected_at : Int
  last_ping : Option Int
  user_agent : Option String
deriving Repr, DecidableEq

/-- State of `services/connection_manager.py` `ConnectionManager`:
the two dicts `_connections` and `_connection_info`, the counter
`_total_connections`, plus the ghost trace `close_attempts` of ids whose
handle got a best-effort `close()` call during cleanup. -/
structure ConnectionManager where
  connections : List (String × WebSocketHandle)
  connection_info : List (String × ConnectionInfo)
  total_connections : Nat
  close_attempts : List String
deriving Repr, DecidableEq

/-- Typed outcome of `ConnectionManager.connect`; the code raises
`ValueError("Client ... is already connected")`,
`ValueError("Maximum connections exceeded")`, or propagates a failure of
`websocket.accept()`. -/
inductive ConnectError where
  | duplicateClientId
  | maxConnectionsExceeded
  | acceptFailed
deriving Repr, DecidableEq

namespace ConnectionManager

/-- `ConnectionManager.__init__`: empty dicts, zero total counter. -/
def init : ConnectionManager :=
  { connections := [], connection_info := [], total_connections := 0, close_attempts := [] }

/-- Python `client_id in self._connections`. -/
def hasClient (cm : ConnectionManager) (client_id : String) : Bool :=
  cm.connections.any (fun p => p.1 == client_id)

/-- `ConnectionManager.connect` (lines 23-66): under the lock, reject a
duplicate id, then reject when `len(self._connections) >= settings.max_connections`,
then `await websocket.accept()`, then insert into both dicts and increment
`_total_connections`. -/
def connect (max_connections : Nat) (websocket : WebSocketHandle) (client_id : String)
    (now : Int) (cm : ConnectionManager) : Except ConnectError ConnectionManager :=
  if cm.hasClient client_id then
    .error .duplicateClientId
  else if max_connections ≤ cm.connections.length then
    .error .maxConnectionsExceeded
  else if websocket.acceptRaises then
    .error .acceptFailed
  else
    .ok { cm with
      connections := cm.connections ++ [(client_id, websocket)],
      connection_info := cm.connection_info ++ [(client_id,
        { client_id := client_id, connected_at := now, last_ping := none,
          user_agent := websocket.userAgent })],
      total_connections := cm.total_connections + 1 }

/-- `ConnectionManager.disconnect` (lines 68-95): if the id is present, delete
it from `_connections` and pop it from `_connection_info`; otherwise no-op. -/
def disconnect (client_id : String) (cm : ConnectionManager) : ConnectionManager :=
  if cm.hasClient client_id then
    { cm with
      connections := cm.connections.filter (fun p => !(p.1 == client_id)),
      connection_info := cm.connection_info.filter (fun p => !(p.1 == client_id)) }
  else cm

/-- Body of the `for client_id in client_ids` loop of
`ConnectionManager._cleanup_failed_connections` (lines 236-247): when the id is
registered, attempt `websocket.close()` (any exception is swallowed; recorded
in the ghost trace), then delete the id from both dicts. -/
def cleanup_one (cm : ConnectionManager) (client_id : String) : ConnectionManager :=
  if cm.hasClient client_id then
    { cm with
      connections := cm.connections.filter (fun p => !(p.1 == client_id)),
      connection_info := cm.connection_info.filter (fun p => !(p.1 == client_id)),
      close_attempts := cm.close_attempts ++ [client_id] }
  else cm

/-- `ConnectionManager._cleanup_failed_connections` (lines 228-247): one batch
removal, under the lock, of every given id that is still registered. -/
def cleanup_failed_connections (client_ids : List String) (cm : ConnectionManager) :
    ConnectionManager :=
  client_ids.foldl cleanup_one cm

/-- Lines 125-127 of `broadcast`: after a successful send, set
`self._connection_info[client_id].last_ping = datetime.now(UTC)` when the id
is still in `_connection_info`. -/
def update_last_ping (client_id : String) (now : Int) (cm : ConnectionManager) :
    ConnectionManager :=
  if cm.connection_info.any (fun p => p.1 == client_id) then
    { cm with
      connection_info := cm.connection_info.map (fun p =>
        if p.1 == client_id then (p.1, { p.2 with last_ping := some now }) else p) }
  else cm

/-- Send loop of `ConnectionManager.broadcast` (lines 119-137): walk the
snapshot; on success count the send and refresh `last_ping`; on
`WebSocketDisconnect` or any other exception record the id as failed.
Returns (successful sends, failed ids, state after the last-ping updates). -/
def broadcast_send_loop (snapshot : List (String × WebSocketHandle)) (now : Int)
    (cm : ConnectionManager) : Nat × List String × ConnectionManager :=
  match snapshot with
  | [] => (0, [], cm)
  | (client_id, websocket) :: rest =>
    if websocket.sendRaises then
      let r := broadcast_send_loop rest now cm
      (r.1, client_id :: r.2.1, r.2.2)
    else
      let r := broadcast_send_loop rest now (update_last_ping client_id now cm)
      (r.1 + 1, r.2.1, r.2.2)

/-- `ConnectionManager.broadcast` (lines 97-152): early-return 0 when there are
no connections; otherwise snapshot the connection dict under the lock, send to
every snapshot member outside the lock, then batch-clean the failed ids and
return the number of successful sends.  The `message` argument is delivered
verbatim to every handle (only logging inspects it), so it does not influence
the registry state. -/
def broadcast (message : List (String × JValue)) (now : Int) (cm : ConnectionManager) :
    Nat × ConnectionManager :=
  if cm.connections.isEmpty then (0, cm)
  else
    let snapshot := cm.connections
    let r := broadcast_send_loop snapshot now cm
    let cm2 := if r.2.1.isEmpty then r.2.2 else cleanup_failed_connections r.2.1 r.2.2
    (r.1, cm2)

/-- `ConnectionManager.get_connection_count` (lines 154-162). -/
def get_connection_count (cm : ConnectionManager) : Nat :=
  cm.connections.length

/-- `ConnectionManager.get_total_connections` (lines 164-171). -/
def get_total_connections (cm : ConnectionManager) : Nat :=
  cm.total_connections

/-- `ConnectionManager.get_connection_info` (lines 173-184). -/
def get_connection_info (client_id : String) (cm : ConnectionManager) :
    Option ConnectionInfo :=
  (cm.connection_info.find? (fun p => p.1 == client_id)).map (fun p => p.2)

/-- `ConnectionManager.get_all_connection_info` (lines 186-194). -/
def get_all_connection_info (cm : ConnectionManager) : List (String × ConnectionInfo) :=
  cm.connection_info

/-- `ConnectionManager.cleanup_stale_connections` (lines 196-226): with
`stale_threshold = now - 3 * settings.ping_interval`, collect every id whose
`last_ping or connected_at` is strictly below the threshold, remove them via
the failure-cleanup path, and return how many were collected. -/
def cleanup_stale_connections (ping_interval : Int) (now : Int) (cm : ConnectionManager) :
    Nat × ConnectionManager :=
  if cm.connections.isEmpty then (0, cm)
  else
    let stale_threshold := now - ping_interval * 3
    let stale_clients := (cm.connection_info.filter (fun p =>
      decide ((p.2.last_ping.getD p.2.connected_at) < stale_threshold))).map (fun p => p.1)
    if stale_clients.isEmpty then (stale_clients.length, cm)
    else (stale_clients.length, cleanup_failed_connections stale_clients cm)

/-- Ping payload built by `ping_all_connections` (lines 259-262). -/
def ping_message (now : Int) : List (String × JValue) :=
  [("type", .jstr "ping"), ("timestamp", .jnum now)]

/-- `ConnectionManager.ping_all_connections` (lines 249-264). -/
def ping_all_connections (now : Int) (cm : ConnectionManager) : Nat × ConnectionManager :=
  if cm.connections.isEmpty then (0, cm)
  else broadcast (ping_message now) now cm

/-- Shutdown payload built by `shutdown_all_connections` (lines 275-279). -/
def shutdown_message (now : Int) : List (String × JValue) :=
  [("type", .jstr "shutdown"), ("message", .jstr "Server is shutting down"),
   ("timestamp", .jnum now)]

/-- `ConnectionManager.shutdown_all_connections` (lines 266-292): early-return
when there are no connections; otherwise broadcast the shutdown notice, then
remove every id still registered through `_cleanup_failed_connections`. -/
def shutdown_all_connections (now : Int) (cm : ConnectionManager) : ConnectionManager :=
  if cm.connections.isEmpty then cm
  else
    let cm1 := (broadcast (shutdown_message now) now cm).2
    let client_ids := cm1.connections.map (fun p => p.1)
    cleanup_failed_connections client_ids cm1

end ConnectionManager

/-- One public registry operation together with the clock value and arguments
it was invoked with; used to state reachability invariants over every
interleaving of public calls. -/
inductive MgrOp where
  | connectOp (websocket : WebSocketHandle) (client_id : String) (now : Int)
  | disconnectOp (client_id : String)
  | broadcastOp (message : List (String × JValue)) (now : Int)
  | cleanupStaleOp (now : Int)
  | pingAllOp (now : Int)
  | shutdownAllOp (now : Int)

/-- Effect of one public operation on the registry state.  A failing `connect`
raises before any mutation, so it leaves the state unchanged. -/
def applyOp (max_connections : Nat) (ping_interval : Int) (op : MgrOp)
    (cm : ConnectionManager) : ConnectionManager :=
  match op with
  | .connectOp websocket client_id now =>
    match ConnectionManager.connect max_connections websocket client_id now cm with
    | .ok cm' => cm'
    | .error _ => cm
  | .disconnectOp client_id => ConnectionManager.disconnect client_id cm
  | .broadcastOp message now => (ConnectionManager.broadcast message now cm).2
  | .cleanupStaleOp now => (ConnectionManager.cleanup_stale_connections ping_interval now cm).2
  | .pingAllOp now => (ConnectionManager.ping_all_connections now cm).2
  | .shutdownAllOp now => ConnectionManager.shutdown_all_connections now cm

/-- Registry states reachable from a fresh `ConnectionManager` by any sequence
of public operations. -/
inductive Reachable (max_connections : Nat) (ping_interval : Int) : ConnectionManager → Prop where
  | init : Reachable max_connections ping_interval ConnectionManager.init
  | step (cm : ConnectionManager) (op : MgrOp) :
      Reachable max_connections ping_interval cm →
      Reachable max_connections ping_interval (applyOp max_connections ping_interval op cm)

/-- Model of `models/message.py` `NotificationMessage`: pydantic model with
default factories for `id` (a fresh uuid), `type` (`"notification"`),
`timestamp` (`datetime.now(UTC)`), `data` (empty dict) and `sender`
(`"server"`). -/
structure NotificationMessage where
  id : String
  type : String
  timestamp : Int
  data : List (String × JValue)
  sender : String
deriving Repr

/-- `NotificationMessage.model_dump(mode='json')`: the five fields in
declaration order. -/
def model_dump (m : NotificationMessage) : List (String × JValue) :=
  [("id", .jstr m.id), ("type", .jstr m.type), ("timestamp", .jnum m.timestamp),
   ("data", .jobj m.data), ("sender", .jstr m.sender)]

/-- Python `str(message)` for the non-dict branch of `send_notification`
(never applied to a dict there). -/
def pyStr : JValue → String
  | .jstr s => s
  | .jnum n => toString n
  | .jobj _ => "dict"

/-- Lines 74-81 of `NotificationService.send_notification`: when the payload
is not a dict or has no `"id"` key, wrap it as the `data` of a fresh
`NotificationMessage` (which fills in `id`, `type`, `timestamp`, `sender`
defaults) and dump that; otherwise use the payload dict unchanged.
`fresh_id` stands for the `uuid4()` drawn by the `id` default factory and
`now` for `datetime.now(UTC)` drawn by the `timestamp` default factory. -/
def normalize_message (fresh_id : String) (now : Int) (message : JValue) :
    List (String × JValue) :=
  match message with
  | .jobj entries =>
    if entries.any (fun p => p.1 == "id") then entries
    else model_dump { id := fresh_id, type := "notification", timestamp := now,
                      data := entries, sender := "server" }
  | other =>
    model_dump { id := fresh_id, type := "notification", timestamp := now,
                 data := [("message", .jstr (pyStr other))], sender := "server" }

/-- `NotificationService.send_notification` (lines 63-102): inside a
`try/except Exception` block, normalize the payload and delegate it to
`ConnectionManager.broadcast`, returning the recipient count; if anything in
the block raises (abstracted by `broadcast_raises`), log and return 0 with the
registry untouched by this call. -/
def send_notification (fresh_id : String) (now : Int) (broadcast_raises : Bool)
    (message : JValue) (cm : ConnectionManager) : Nat × ConnectionManager :=
  let message_dict := normalize_message fresh_id now message
  let attempt : Except String (Nat × ConnectionManager) :=
    if broadcast_raises then .error "send failed"
    else .ok (ConnectionManager.broadcast message_dict now cm)
  match attempt with
  | .ok r => r
  | .error _ => (0, cm)

/-- Scheduler state of `services/notification_service.py` `NotificationService`:
`_is_running`, whether the spawned `_periodic_notification_loop` task is still
alive (spawned and neither finished nor cancelled-and-awaited), and
`_notification_counter`. -/
structure NotificationService where
  is_running : Bool
  task_alive : Bool
  notification_counter : Nat
deriving Repr, DecidableEq

/-- `NotificationService.start_periodic_notifications` (lines 29-41):
if already running, no-op; otherwise set `_is_running` and spawn the loop. -/
def start_periodic_notifications (s : NotificationService) : NotificationService :=
  if s.is_running then s
  else { s with is_running := true, task_alive := true }

/-- `NotificationService.stop_periodic_notifications` (lines 43-61): when not
running, return immediately; otherwise clear `_is_running`, cancel the
periodic task and await its termination, so the task is no longer alive when
the call returns. -/
def stop_periodic_notifications (s : NotificationService) : NotificationService :=
  if !s.is_running then s
  else { s with is_running := false, task_alive := false }

/-- Autonomous steps of `_periodic_notification_loop` (lines 215-246),
interleaved with the rest of the program: one loop iteration observes
`_is_running` true and sends a test notification (incrementing
`_notification_counter` via `create_test_notification`); the loop exits when
it observes `_is_running` false; an unexpected internal fault clears
`_is_running` and terminates the task. -/
inductive SchedulerStep : NotificationService → NotificationService → Prop where
  | loopSend (s : NotificationService) (h1 : s.is_running = true) (h2 : s.task_alive = true) :
      SchedulerStep s { s with notification_counter := s.notification_counter + 1 }
  | loopExit (s : NotificationService) (h1 : s.is_running = false) (h2 : s.task_alive = true) :
      SchedulerStep s { s with task_alive := false }
  | loopCrash (s : NotificationService) (h1 : s.is_running = true) (h2 : s.task_alive = true) :
      SchedulerStep s { s with is_running := false, task_alive := false }

/-- State of `handlers/shutdown_handler.py` `ShutdownHandler`:
`_shutdown_requested` and `_shutdown_start_time`. -/
structure ShutdownHandler where
  shutdown_requested : Bool
  shutdown_start_time : Option Int
deriving Repr, DecidableEq

/-- Observable result of `ShutdownHandler._signal_handler`: either the process
exits with the given status (`sys.exit`), or the handler returns after
scheduling the `graceful_shutdown` task, leaving the handler in the given
state. -/
inductive SignalOutcome where
  | exited (status : Nat)
  | scheduledShutdown (h : ShutdownHandler)
deriving Repr, DecidableEq

/-- `ShutdownHandler._signal_handler` (lines 55-81): when a shutdown is
already requested, `sys.exit(1)`; otherwise record the request and its start
time and create the `graceful_shutdown` task. -/
def signal_handler (now : Int) (h : ShutdownHandler) : SignalOutcome :=
  if h.shutdown_requested then .exited 1
  else .scheduledShutdown { shutdown_requested := true, shutdown_start_time := some now }

/-- Whether each internal phase of the graceful-shutdown sequence raises, in
the order `graceful_shutdown` runs them (`_stop_services`,
`_notify_clients_shutdown`, `wait_for_connections_or_timeout`,
`_force_close_connections`). -/
structure PhaseFaults where
  stop_services_raises : Bool
  notify_clients_raises : Bool
  wait_for_connections_raises : Bool
  force_close_raises : Bool
deriving Repr, DecidableEq

/-- The four phase calls inside the `try` block of
`ShutdownHandler.graceful_shutdown` (lines 99-112), each aborting the rest of
the block if it raises. -/
def run_shutdown_phases (f : PhaseFaults) : Except String Unit :=
  if f.stop_services_raises then .error "error stopping services"
  else if f.notify_clients_raises then .error "error notifying clients"
  else if f.wait_for_connections_raises then .error "error waiting for connections"
  else if f.force_close_raises then .error "error force closing connections"
  else .ok ()

/-- Observable result of `ShutdownHandler.graceful_shutdown`: plain return, or
process exit with the given status. -/
inductive ShutdownOutcome where
  | returned
  | exited (status : Nat)
deriving Repr, DecidableEq

/-- `ShutdownHandler.graceful_shutdown` (lines 83-121): return early when no
shutdown was requested; otherwise run the four phases inside
`try/except Exception/finally`, where the `except` arm logs the error (the
Bool records whether it fired) and the `finally` arm always runs
`sys.exit(0)`. -/
def graceful_shutdown (f : PhaseFaults) (h : ShutdownHandler) : ShutdownOutcome × Bool :=
  if !h.shutdown_requested then (.returned, false)
  else
    match run_shutdown_phases f with
    | .ok _ => (.exited 0, false)
    | .error _ => (.exited 0, true)

/-! ### Generic association-list lemmas -/

theorem length_filter_not_add {α : Type} (p : α → Bool) (l : List α) :
    (l.filter (fun a => !(p a))).length + (l.filter p).length = l.length := by
  induction l with
  | nil => rfl
  | cons a l ih =>
    by_cases h : p a = true <;> simp [List.filter_cons, h] <;> omega

theorem map_fst_filter_comp {α : Type} (pred : String → Bool) (l : List (String × α)) :
    (l.filter (fun p => pred p.1)).map Prod.fst = (l.map Prod.fst).filter pred := by
  induction l with
  | nil => rfl
  | cons a l ih =>
    by_cases h : pred a.1 = true <;> simp [List.filter_cons, h, ih]

theorem map_fst_filter_ne {α : Type} (id : String) (l : List (String × α)) :
    (l.filter (fun p => !(p.1 == id))).map Prod.fst
      = (l.map Prod.fst).filter (fun k => !(k == id)) :=
  map_fst_filter_comp (fun k => !(k == id)) l

theorem map_fst_filter_not_contains {α : Type} (ids : List String) (l : List (String × α)) :
    (l.filter (fun p => !(ids.contains p.1))).map Prod.fst
      = (l.map Prod.fst).filter (fun k => !(ids.contains k)) :=
  map_fst_filter_comp (fun k => !(ids.contains k)) l

theorem nodup_keys_ext {α : Type} {l : List (String × α)}
    (h : (l.map Prod.fst).Nodup) {p q : String × α}
    (hp : p ∈ l) (hq : q ∈ l) (hk : p.1 = q.1) : p = q := by
  induction l with
  | nil => cases hp
  | cons a l ih =>
    simp only [List.map_cons, List.nodup_cons] at h
    rcases List.mem_cons.mp hp with hp1 | hp1 <;>
      rcases List.mem_cons.mp hq with hq1 | hq1
    · exact hp1.trans hq1.symm
    · exfalso
      exact h.1 (hp1 ▸ hk ▸ List.mem_map_of_mem Prod.fst hq1)
    · exfalso
      exact h.1 (hq1 ▸ hk ▸ List.mem_map_of_mem Prod.fst hp1)
    · exact ih h.2 hp1 hq1

theorem filter_key_eq_self {α : Type} {l : List (String × α)} {id : String}
    (h : ¬ id ∈ l.map Prod.fst) : l.filter (fun p => !(p.1 == id)) = l := by
  apply List.filter_eq_self.mpr
  intro a ha
  simp only [Bool.not_eq_true', beq_eq_false_iff_ne, ne_eq]
  intro hk
  exact h (hk ▸ List.mem_map_of_mem Prod.fst ha)

/-! ### Registry invariant: the two dicts share their key sequence -/

/-- The connection-handle dict and the connection-info dict hold exactly the
same keys, in the same order. -/
def KeysAligned (cm : ConnectionManager) : Prop :=
  cm.connections.map Prod.fst = cm.connection_info.map Prod.fst

namespace ConnectionManager

theorem hasClient_iff (cm : ConnectionManager) (id : String) :
    cm.hasClient id = true ↔ id ∈ cm.connections.map Prod.fst := by
  simp only [hasClient, List.any_eq_true, beq_iff_eq, List.mem_map]

theorem hasClient_false (cm : ConnectionManager) (id : String)
    (h : ¬ cm.hasClient id = true) : ¬ id ∈ cm.connections.map Prod.fst :=
  fun hmem => h ((hasClient_iff cm id).mpr hmem)

/-! #### `cleanup_one` -/

theorem cleanup_one_connections (cm : ConnectionManager) (id : String) :
    (cleanup_one cm id).connections = cm.connections.filter (fun p => !(p.1 == id)) := by
  unfold cleanup_one
  by_cases h : cm.hasClient id = true
  · rw [if_pos h]
  · rw [if_neg h]
    exact (filter_key_eq_self (hasClient_false cm id h)).symm

theorem cleanup_one_info (cm : ConnectionManager) (id : String) (halign : KeysAligned cm) :
    (cleanup_one cm id).connection_info
      = cm.connection_info.filter (fun p => !(p.1 == id)) := by
  unfold cleanup_one
  by_cases h : cm.hasClient id = true
  · rw [if_pos h]
  · rw [if_neg h]
    have hni : ¬ id ∈ cm.connection_info.map Prod.fst := halign ▸ hasClient_false cm id h
    exact (filter_key_eq_self hni).symm

theorem cleanup_one_aligned {cm : ConnectionManager} (id : String)
    (halign : KeysAligned cm) : KeysAligned (cleanup_one cm id) := by
  unfold KeysAligned
  rw [cleanup_one_connections, cleanup_one_info cm id halign,
    map_fst_filter_ne, map_fst_filter_ne, halign]

theorem cleanup_one_total (cm : ConnectionManager) (id : String) :
    (cleanup_one cm id).total_connections = cm.total_connections := by
  unfold cleanup_one
  by_cases h : cm.hasClient id = true <;> simp [h]

theorem cleanup_one_close_mono (cm : ConnectionManager) (id : String) :
    ∀ x ∈ cm.close_attempts, x ∈ (cleanup_one cm id).close_attempts := by
  intro x hx
  unfold cleanup_one
  by_cases h : cm.hasClient id = true <;> simp [h, hx]

/-! #### `cleanup_failed_connections` -/

theorem cleanup_cons (id : String) (ids : List String) (cm : ConnectionManager) :
    cleanup_failed_connections (id :: ids) cm
      = cleanup_failed_connections ids (cleanup_one cm id) := rfl

theorem cleanup_connections (ids : List String) (cm : ConnectionManager) :
    (cleanup_failed_connections ids cm).connections
      = cm.connections.filter (fun p => !(ids.contains p.1)) := by
  induction ids generalizing cm with
  | nil => simp [cleanup_failed_connections]
  | cons id ids ih =>
    rw [cleanup_cons, ih, cleanup_one_connections, List.filter_filter]
    apply List.filter_congr
    intro p _
    simp only [List.contains_cons, Bool.not_or]
    exact Bool.and_comm _ _

theorem cleanup_info (ids : List String) (cm : ConnectionManager)
    (halign : KeysAligned cm) :
    (cleanup_failed_connections ids cm).connection_info
      = cm.connection_info.filter (fun p => !(ids.contains p.1)) := by
  induction ids generalizing cm with
  | nil => simp [cleanup_failed_connections]
  | cons id ids ih =>
    rw [cleanup_cons, ih (cleanup_one cm id) (cleanup_one_aligned id halign),
      cleanup_one_info cm id halign, List.filter_filter]
    apply List.filter_congr
    intro p _
    simp only [List.contains_cons, Bool.not_or]
    exact Bool.and_comm _ _

theorem cleanup_aligned (ids : List String) {cm : ConnectionManager}
    (halign : KeysAligned cm) : KeysAligned (cleanup_failed_connections ids cm) := by
  unfold KeysAligned
  rw [cleanup_connections, cleanup_info ids cm halign,
    map_fst_filter_not_contains, map_fst_filter_not_contains, halign]

theorem cleanup_total (ids : List String) (cm : ConnectionManager) :
    (cleanup_failed_connections ids cm).total_connections = cm.total_connections := by
  induction ids generalizing cm with
  | nil => rfl
  | cons id ids ih => rw [cleanup_cons, ih, cleanup_one_total]

theorem cleanup_length_le (ids : List String) (cm : ConnectionManager) :
    (cleanup_failed_connections ids cm).connections.length
      ≤ cm.connections.length := by
  rw [cleanup_connections]
  exact List.length_filter_le _ _

theorem cleanup_close_mono (ids : List String) (cm : ConnectionManager) :
    ∀ x ∈ cm.close_attempts, x ∈ (cleanup_failed_connections ids cm).close_attempts := by
  induction ids generalizing cm with
  | nil => intro x hx; exact hx
  | cons id ids ih =>
    intro x hx
    rw [cleanup_cons]
    exact ih (cleanup_one cm id) x (cleanup_one_close_mono cm id x hx)

theorem hasClient_cleanup_one_ne (cm : ConnectionManager) (i id : String)
    (hne : id ≠ i) (h : cm.hasClient id = true) :
    (cleanup_one cm i).hasClient id = true := by
  rw [hasClient_iff] at h ⊢
  rw [cleanup_one_connections, map_fst_filter_ne]
  simp only [List.mem_filter, Bool.not_eq_true', beq_eq_false_iff_ne, ne_eq]
  exact ⟨h, hne⟩

theorem cleanup_close_attempt (ids : List String) :
    ∀ (cm : ConnectionManager) (id : String), id ∈ ids → cm.hasClient id = true →
      id ∈ (cleanup_failed_connections ids cm).close_attempts := by
  induction ids with
  | nil =>
    intro cm id hid _
    cases hid
  | cons i ids ih =>
    intro cm id hid hc
    rw [cleanup_cons]
    by_cases he : id = i
    · subst he
      have hmem : id ∈ (cleanup_one cm id).close_attempts := by
        unfold cleanup_one
        simp [hc]
      exact cleanup_close_mono ids (cleanup_one cm id) id hmem
    · rcases List.mem_cons.mp hid with h1 | h1
      · exact absurd h1 he
      · exact ih (cleanup_one cm i) id h1 (hasClient_cleanup_one_ne cm i id he hc)

/-! #### `update_last_ping` -/

theorem update_last_ping_connections (id : String) (now : Int) (cm : ConnectionManager) :
    (update_last_ping id now cm).connections = cm.connections := by
  unfold update_last_ping
  by_cases h : cm.connection_info.any (fun p => p.1 == id) = true <;> simp [h]

theorem map_fst_map_preserve {α : Type} (f : String × α → String × α)
    (hf : ∀ p, (f p).1 = p.1) (l : List (String × α)) :
    (l.map f).map Prod.fst = l.map Prod.fst := by
  induction l with
  | nil => rfl
  | cons a l ih => simp [hf, ih]

theorem update_last_ping_info_keys (id : String) (now : Int) (cm : ConnectionManager) :
    (update_last_ping id now cm).connection_info.map Prod.fst
      = cm.connection_info.map Prod.fst := by
  unfold update_last_ping
  by_cases h : cm.connection_info.any (fun p => p.1 == id) = true
  · simp only [h, if_true]
    apply map_fst_map_preserve
    intro p
    by_cases hk : (p.1 == id) = true <;> simp [hk]
  · simp [h]

theorem update_last_ping_total (id : String) (now : Int) (cm : ConnectionManager) :
    (update_last_ping id now cm).total_connections = cm.total_connections := by
  unfold update_last_ping
  by_cases h : cm.connection_info.any (fun p => p.1 == id) = true <;> simp [h]

theorem update_last_ping_close (id : String) (now : Int) (cm : ConnectionManager) :
    (update_last_ping id now cm).close_attempts = cm.close_attempts := by
  unfold update_last_ping
  by_cases h : cm.connection_info.any (fun p => p.1 == id) = true <;> simp [h]

theorem update_last_ping_aligned (id : String) (now : Int) {cm : ConnectionManager}
    (halign : KeysAligned cm) : KeysAligned (update_last_ping id now cm) := by
  unfold KeysAligned
  rw [update_last_ping_connections, update_last_ping_info_keys, halign]

/-! #### `broadcast_send_loop` -/

theorem broadcast_send_loop_count (snapshot : List (String × WebSocketHandle)) (now : Int)
    (cm : ConnectionManager) :
    (broadcast_send_loop snapshot now cm).1
      = (snapshot.filter (fun p => !(p.2.sendRaises))).length := by
  induction snapshot generalizing cm with
  | nil => rfl
  | cons a rest ih =>
    unfold broadcast_send_loop
    by_cases h : a.2.sendRaises = true <;> simp [h, List.filter_cons, ih]

theorem broadcast_send_loop_failed (snapshot : List (String × WebSocketHandle)) (now : Int)
    (cm : ConnectionManager) :
    (broadcast_send_loop snapshot now cm).2.1
      = (snapshot.filter (fun p => p.2.sendRaises)).map Prod.fst := by
  induction snapshot generalizing cm with
  | nil => rfl
  | cons a rest ih =>
    unfold broadcast_send_loop
    by_cases h : a.2.sendRaises = true <;> simp [h, List.filter_cons, ih]

theorem broadcast_send_loop_connections (snapshot : List (String × WebSocketHandle))
    (now : Int) (cm : ConnectionManager) :
    (broadcast_send_loop snapshot now cm).2.2.connections = cm.connections := by
  induction snapshot generalizing cm with
  | nil => rfl
  | cons a rest ih =>
    unfold broadcast_send_loop
    by_cases h : a.2.sendRaises = true
    · simp [h, ih]
    · simp [h, ih, update_last_ping_connections]

theorem broadcast_send_loop_info_keys (snapshot : List (String × WebSocketHandle))
    (now : Int) (cm : ConnectionManager) :
    (broadcast_send_loop snapshot now cm).2.2.connection_info.map Prod.fst
      = cm.connection_info.map Prod.fst := by
  induction snapshot generalizing cm with
  | nil => rfl
  | cons a rest ih =>
    unfold broadcast_send_loop
    by_cases h : a.2.sendRaises = true
    · simp [h, ih]
    · simp [h, ih, update_last_ping_info_keys]

theorem broadcast_send_loop_total (snapshot : List (String × WebSocketHandle))
    (now : Int) (cm : ConnectionManager) :
    (broadcast_send_loop snapshot now cm).2.2.total_connections = cm.total_connections := by
  induction snapshot generalizing cm with
  | nil => rfl
  | cons a rest ih =>
    unfold broadcast_send_loop
    by_cases h : a.2.sendRaises = true
    · simp [h, ih]
    · simp [h, ih, update_last_ping_total]

theorem broadcast_send_loop_close (snapshot : List (String × WebSocketHandle))
    (now : Int) (cm : ConnectionManager) :
    (broadcast_send_loop snapshot now cm).2.2.close_attempts = cm.close_attempts := by
  induction snapshot generalizing cm with
  | nil => rfl
  | cons a rest ih =>
    unfold broadcast_send_loop
    by_cases h : a.2.sendRaises = true
    · simp [h, ih]
    · simp [h, ih, update_last_ping_close]

theorem broadcast_send_loop_aligned (snapshot : List (String × WebSocketHandle))
    (now : Int) {cm : ConnectionManager} (halign : KeysAligned cm) :
    KeysAligned (broadcast_send_loop snapshot now cm).2.2 := by
  unfold KeysAligned
  rw [broadcast_send_loop_connections, broadcast_send_loop_info_keys, halign]

/-! #### `broadcast` -/

theorem broadcast_total (message : List (String × JValue)) (now : Int)
    (cm : ConnectionManager) :
    (broadcast message now cm).2.total_connections = cm.total_connections := by
  unfold broadcast
  by_cases h : cm.connections.isEmpty = true
  · simp [h]
  · simp only [h, Bool.false_eq_true, not_false_eq_true, if_false]
    by_cases h2 : (broadcast_send_loop cm.connections now cm).2.1.isEmpty = true <;>
      simp [h2, cleanup_total, broadcast_send_loop_total]

theorem broadcast_aligned (message : List (String × JValue)) (now : Int)
    {cm : ConnectionManager} (halign : KeysAligned cm) :
    KeysAligned (broadcast message now cm).2 := by
  unfold broadcast
  by_cases h : cm.connections.isEmpty = true
  · simpa [h] using halign
  · simp only [h, Bool.false_eq_true, not_false_eq_true, if_false]
    by_cases h2 : (broadcast_send_loop cm.connections now cm).2.1.isEmpty = true
    · simpa [h2] using broadcast_send_loop_aligned cm.connections now halign
    · simpa [h2] using
        cleanup_aligned (broadcast_send_loop cm.connections now cm).2.1
          (broadcast_send_loop_aligned cm.connections now halign)

theorem broadcast_length_le (message : List (String × JValue)) (now : Int)
    (cm : ConnectionManager) :
    (broadcast message now cm).2.connections.length ≤ cm.connections.length := by
  unfold broadcast
  by_cases h : cm.connections.isEmpty = true
  · simp [h]
  · simp only [h, Bool.false_eq_true, not_false_eq_true, if_false]
    by_cases h2 : (broadcast_send_loop cm.connections now cm).2.1.isEmpty = true
    · simp [h2, broadcast_send_loop_connections]
    · simp only [h2, Bool.false_eq_true, not_false_eq_true, if_false]
      calc (cleanup_failed_connections (broadcast_send_loop cm.connections now cm).2.1
              (broadcast_send_loop cm.connections now cm).2.2).connections.length
          ≤ (broadcast_send_loop cm.connections now cm).2.2.connections.length :=
            cleanup_length_le _ _
        _ = cm.connections.length := by rw [broadcast_send_loop_connections]

theorem mem_map_fst_filter_sendRaises {cm : ConnectionManager}
    {p : String × WebSocketHandle} (hp : p ∈ cm.connections) (hs : p.2.sendRaises = true) :
    p.1 ∈ (cm.connections.filter (fun q => q.2.sendRaises)).map Prod.fst :=
  List.mem_map_of_mem Prod.fst (List.mem_filter.mpr ⟨hp, hs⟩)

theorem failed_contains_eq (cm : ConnectionManager)
    (hnodup : (cm.connections.map Prod.fst).Nodup)
    {p : String × WebSocketHandle} (hp : p ∈ cm.connections) :
    ((cm.connections.filter (fun q => q.2.sendRaises)).map Prod.fst).contains p.1
      = p.2.sendRaises := by
  by_cases hs : p.2.sendRaises = true
  · rw [hs]
    exact List.elem_iff.mpr (mem_map_fst_filter_sendRaises hp hs)
  · have hs2 : p.2.sendRaises = false := Bool.not_eq_true _ ▸ hs
    rw [hs2, Bool.eq_false_iff]
    intro hcon
    have hmem : p.1 ∈ (cm.connections.filter (fun q => q.2.sendRaises)).map Prod.fst :=
      List.elem_iff.mp hcon
    rcases List.mem_map.mp hmem with ⟨q, hq, hq1⟩
    have hqm := List.mem_filter.mp hq
    have heq : q = p := nodup_keys_ext hnodup hqm.1 hp hq1
    rw [heq, hs2] at hqm
    exact Bool.false_ne_true hqm.2

theorem broadcast_count (message : List (String × JValue)) (now : Int)
    (cm : ConnectionManager) :
    (broadcast message now cm).1
      = (cm.connections.filter (fun p => !(p.2.sendRaises))).length := by
  unfold broadcast
  by_cases h : cm.connections.isEmpty = true
  · have hc := List.isEmpty_iff.mp h
    simp [h, hc]
  · simp [h, broadcast_send_loop_count]

theorem broadcast_connections_char (message : List (String × JValue)) (now : Int)
    (cm : ConnectionManager) (hnodup : (cm.connections.map Prod.fst).Nodup) :
    (broadcast message now cm).2.connections
      = cm.connections.filter (fun p => !(p.2.sendRaises)) := by
  unfold broadcast
  by_cases h : cm.connections.isEmpty = true
  · have hc := List.isEmpty_iff.mp h
    simp [h, hc]
  · simp only [h, Bool.false_eq_true, not_false_eq_true, if_false]
    by_cases h2 : (broadcast_send_loop cm.connections now cm).2.1.isEmpty = true
    · have hfail : (cm.connections.filter (fun p => p.2.sendRaises)).map Prod.fst = [] := by
        rw [← broadcast_send_loop_failed cm.connections now cm]
        exact List.isEmpty_iff.mp h2
      have hfail2 : cm.connections.filter (fun p => p.2.sendRaises) = [] :=
        List.map_eq_nil_iff.mp hfail
      have hall : ∀ p ∈ cm.connections, (!(p.2.sendRaises)) = true := by
        intro p hp
        have hnp := List.filter_eq_nil_iff.mp hfail2 p hp
        simpa using hnp
      simp only [h2, if_true]
      rw [broadcast_send_loop_connections, List.filter_eq_self.mpr hall]
    · simp only [h2, Bool.false_eq_true, not_false_eq_true, if_false]
      rw [cleanup_connections, broadcast_send_loop_connections, broadcast_send_loop_failed]
      apply List.filter_congr
      intro p hp
      rw [failed_contains_eq cm hnodup hp]

theorem broadcast_close_of_sendRaises (message : List (String × JValue)) (now : Int)
    (cm : ConnectionManager) {p : String × WebSocketHandle}
    (hp : p ∈ cm.connections) (hs : p.2.sendRaises = true) :
    p.1 ∈ (broadcast message now cm).2.close_attempts := by
  unfold broadcast
  have hne : cm.connections.isEmpty = false := by
    cases hcc : cm.connections with
    | nil => rw [hcc] at hp; cases hp
    | cons a l => rfl
  simp only [hne, Bool.false_eq_true, not_false_eq_true, if_false]
  have hmem : p.1 ∈ (broadcast_send_loop cm.connections now cm).2.1 := by
    rw [broadcast_send_loop_failed]
    exact mem_map_fst_filter_sendRaises hp hs
  have h2 : (broadcast_send_loop cm.connections now cm).2.1.isEmpty = false := by
    cases hf : (broadcast_send_loop cm.connections now cm).2.1 with
    | nil => rw [hf] at hmem; cases hmem
    | cons a l => rfl
  simp only [h2, Bool.false_eq_true, not_false_eq_true, if_false]
  apply cleanup_close_attempt _ _ _ hmem
  rw [hasClient_iff, broadcast_send_loop_connections]
  exact List.mem_map_of_mem Prod.fst hp

end ConnectionManager

/-! ### Example states used to instantiate theorems with hypotheses -/

/-- A cooperative handle: accept, send and close all succeed. -/
def wsOk : WebSocketHandle :=
  { acceptRaises := false, sendRaises := false, closeRaises := false, userAgent := none }

/-- An uncooperative handle: send and close both raise. -/
def wsBroken : WebSocketHandle :=
  { acceptRaises := false, sendRaises := true, closeRaises := true, userAgent := none }

/-- Connection info for a client that connected at time `t` and never pinged. -/
def infoAt (id : String) (t : Int) : ConnectionInfo :=
  { client_id := id, connected_at := t, last_ping := none, user_agent := none }

/-- Registry with three clients of which exactly `c2` fails on send
(the concrete scenario of spec §8.8). -/
def threeClientManager : ConnectionManager :=
  { connections := [("c1", wsOk), ("c2", wsBroken), ("c3", wsOk)],
    connection_info := [("c1", infoAt "c1" 0), ("c2", infoAt "c2" 0), ("c3", infoAt "c3" 0)],
    total_connections := 3, close_attempts := [] }

/-! ### Claim theorems -/

open ConnectionManager

/-- **C1**: for every `broadcast(m)` call over a registry holding N connections
of which exactly K raise on send, the call returns N−K and afterwards
`count() == N−K`; each failed recipient is removed from the registry (with a
best-effort close attempted first, witnessed by the `close_attempts` trace) and
every recipient whose send succeeded remains registered.  N is
`get_connection_count` and K is the number of registered handles whose send
raises; the hypothesis is the Python-dict guarantee that keys are unique. -/
theorem broadcast_failures_removed (message : List (String × JValue)) (now : Int)
    (cm : ConnectionManager) (hnodup : (cm.connections.map Prod.fst).Nodup) :
    (broadcast message now cm).1
        = cm.get_connection_count
          - (cm.connections.filter (fun p => p.2.sendRaises)).length
    ∧ (broadcast message now cm).2.get_connection_count
        = cm.get_connection_count
          - (cm.connections.filter (fun p => p.2.sendRaises)).length
    ∧ (∀ p ∈ cm.connections, p.2.sendRaises = true →
        ¬ p.1 ∈ (broadcast message now cm).2.connections.map Prod.fst
          ∧ p.1 ∈ (broadcast message now cm).2.close_attempts)
    ∧ ∀ p ∈ cm.connections, p.2.sendRaises = false →
        p ∈ (broadcast message now cm).2.connections := by
  have hsplit : (cm.connections.filter (fun p => !(p.2.sendRaises))).length
      + (cm.connections.filter (fun p => p.2.sendRaises)).length
      = cm.connections.length :=
    length_filter_not_add _ _
  have hchar := broadcast_connections_char message now cm hnodup
  refine ⟨?_, ?_, ?_, ?_⟩
  · rw [broadcast_count]
    unfold get_connection_count
    omega
  · unfold get_connection_count
    rw [hchar]
    omega
  · intro p hp hs
    constructor
    · rw [hchar]
      intro hmem
      rcases List.mem_map.mp hmem with ⟨q, hq, hq1⟩
      have hqm := List.mem_filter.mp hq
      have heq : q = p := nodup_keys_ext hnodup hqm.1 hp hq1
      rw [heq, hs] at hqm
      simpa using hqm.2
    · exact broadcast_close_of_sendRaises message now cm hp hs
  · intro p hp hs
    rw [hchar]
    exact List.mem_filter.mpr ⟨hp, by rw [hs]; rfl⟩

/-- Witness for C1 at the three-client registry where only `c2` fails:
`broadcast` returns 2 and leaves `c1`, `c3` registered. -/
theorem broadcast_failures_removed_witness :
    (broadcast [] 10 threeClientManager).1
        = threeClientManager.get_connection_count
          - (threeClientManager.connections.filter (fun p => p.2.sendRaises)).length
    ∧ (broadcast [] 10 threeClientManager).2.get_connection_count
        = threeClientManager.get_connection_count
          - (threeClientManager.connections.filter (fun p => p.2.sendRaises)).length
    ∧ (∀ p ∈ threeClientManager.connections, p.2.sendRaises = true →
        ¬ p.1 ∈ (broadcast [] 10 threeClientManager).2.connections.map Prod.fst
          ∧ p.1 ∈ (broadcast [] 10 threeClientManager).2.close_attempts)
    ∧ ∀ p ∈ threeClientManager.connections, p.2.sendRaises = false →
        p ∈ (broadcast [] 10 threeClientManager).2.connections :=
  broadcast_failures_removed [] 10 threeClientManager (by decide)

/-- **C2**: `connect` fails with the typed duplicate outcome when the id is
registered, fails with the typed limit outcome when the registry already holds
the configured maximum, leaves the whole state unchanged on every failure, and
on success inserts exactly one entry for the id (growing both the active count
and the ever-total by one). -/
theorem connect_typed_outcomes (max_connections : Nat) (ping_interval : Int)
    (websocket : WebSocketHandle) (client_id : String) (now : Int) (cm : ConnectionManager) :
    (cm.hasClient client_id = true →
        connect max_connections websocket client_id now cm
          = Except.error ConnectError.duplicateClientId)
    ∧ (cm.hasClient client_id = false → max_connections ≤ cm.get_connection_count →
        connect max_connections websocket client_id now cm
          = Except.error ConnectError.maxConnectionsExceeded)
    ∧ (∀ e, connect max_connections websocket client_id now cm = Except.error e →
        applyOp max_connections ping_interval (MgrOp.connectOp websocket client_id now) cm = cm)
    ∧ ∀ cm', connect max_connections websocket client_id now cm = Except.ok cm' →
        cm'.connections = cm.connections ++ [(client_id, websocket)]
        ∧ cm'.get_connection_count = cm.get_connection_count + 1
        ∧ cm'.get_total_connections = cm.get_total_connections + 1 := by
  refine ⟨?_, ?_, ?_, ?_⟩
  · intro h
    simp [connect, h]
  · intro h hle
    simp [connect, h, get_connection_count, hle] at *
    simp [connect, h, hle]
  · intro e he
    simp [applyOp, he]
  · intro cm' hok
    unfold connect at hok
    split_ifs at hok <;> cases hok <;>
      simp [get_connection_count, get_total_connections]

/-- Witness for C2: duplicate id rejected on the three-client registry, limit
rejection when the maximum is 3, with the state left unchanged. -/
theorem connect_typed_outcomes_witness :
    connect 10 wsOk "c1" 0 threeClientManager = Except.error ConnectError.duplicateClientId
    ∧ connect 3 wsOk "c9" 0 threeClientManager = Except.error ConnectError.maxConnectionsExceeded
    ∧ applyOp 3 30 (MgrOp.connectOp wsOk "c9" 0) threeClientManager = threeClientManager :=
  ⟨(connect_typed_outcomes 10 30 wsOk "c1" 0 threeClientManager).1 (by decide),
   (connect_typed_outcomes 3 30 wsOk "c9" 0 threeClientManager).2.1 (by decide) (by decide),
   (connect_typed_outcomes 3 30 wsOk "c9" 0 threeClientManager).2.2.1
     ConnectError.maxConnectionsExceeded
     ((connect_typed_outcomes 3 30 wsOk "c9" 0 threeClientManager).2.1 (by decide) (by decide))⟩

theorem cleanup_all_keys (cm : ConnectionManager) (halign : KeysAligned cm) :
    (cleanup_failed_connections (cm.connections.map Prod.fst) cm).connections = []
    ∧ (cleanup_failed_connections (cm.connections.map Prod.fst) cm).connection_info = [] := by
  constructor
  · rw [cleanup_connections]
    apply List.filter_eq_nil_iff.mpr
    intro p hp
    have hmem : p.1 ∈ cm.connections.map Prod.fst := List.mem_map_of_mem Prod.fst hp
    simp [List.elem_eq_mem, hmem]
  · rw [cleanup_info _ _ halign]
    apply List.filter_eq_nil_iff.mpr
    intro p hp
    have hmem : p.1 ∈ cm.connections.map Prod.fst := by
      rw [halign]
      exact List.mem_map_of_mem Prod.fst hp
    simp [List.elem_eq_mem, hmem]

/-- **C3**: after `shutdown_all_connections` returns the registry is empty —
`count() == 0` and both dicts hold no entry — for every starting state,
whatever the outcome of the shutdown-notice sends and of the individual handle
closes (both are arbitrary fields of the registered handles); the hypothesis
is the two-dict key-alignment invariant, which holds in every reachable state. -/
theorem shutdown_all_connections_empties (now : Int) (cm : ConnectionManager)
    (halign : KeysAligned cm) :
    (shutdown_all_connections now cm).get_connection_count = 0
    ∧ (shutdown_all_connections now cm).connections = []
    ∧ (shutdown_all_connections now cm).connection_info = [] := by
  have main : (shutdown_all_connections now cm).connections = []
      ∧ (shutdown_all_connections now cm).connection_info = [] := by
    unfold shutdown_all_connections
    by_cases h : cm.connections.isEmpty = true
    · have hc : cm.connections = [] := List.isEmpty_iff.mp h
      have hi : cm.connection_info = [] := by
        have h2 : cm.connection_info.map Prod.fst = ([] : List String) := by
          rw [← halign, hc]
          rfl
        exact List.map_eq_nil_iff.mp h2
      simp [h, hc, hi]
    · simp only [h, Bool.false_eq_true, not_false_eq_true, if_false]
      exact cleanup_all_keys (broadcast (shutdown_message now) now cm).2
        (broadcast_aligned _ _ halign)
  exact ⟨by rw [get_connection_count, main.1]; rfl, main.1, main.2⟩

/-- Witness for C3 at a single uncooperative client (send and close both
raise): the registry still ends empty. -/
theorem shutdown_all_connections_empties_witness :
    (shutdown_all_connections 5
        { connections := [("c1", wsBroken)],
          connection_info := [("c1", infoAt "c1" 0)],
          total_connections := 1, close_attempts := [] }).get_connection_count = 0
    ∧ (shutdown_all_connections 5
        { connections := [("c1", wsBroken)],
          connection_info := [("c1", infoAt "c1" 0)],
          total_connections := 1, close_attempts := [] }).connections = []
    ∧ (shutdown_all_connections 5
        { connections := [("c1", wsBroken)],
          connection_info := [("c1", infoAt "c1" 0)],
          total_connections := 1, close_attempts := [] }).connection_info = [] :=
  shutdown_all_connections_empties 5 _ rfl

theorem keys_filter_contains_eq {α : Type} (l : List (String × α)) (pred : String × α → Bool)
    (hnodup : (l.map Prod.fst).Nodup) {p : String × α} (hp : p ∈ l) :
    ((l.filter pred).map Prod.fst).contains p.1 = pred p := by
  by_cases hs : pred p = true
  · rw [hs]
    exact List.elem_iff.mpr (List.mem_map_of_mem Prod.fst (List.mem_filter.mpr ⟨hp, hs⟩))
  · have hs2 : pred p = false := Bool.not_eq_true _ ▸ hs
    rw [hs2, Bool.eq_false_iff]
    intro hcon
    rcases List.mem_map.mp (List.elem_iff.mp hcon) with ⟨q, hq, hq1⟩
    have hqm := List.mem_filter.mp hq
    have heq : q = p := nodup_keys_ext hnodup hqm.1 hp hq1
    rw [heq, hs2] at hqm
    exact Bool.false_ne_true hqm.2

theorem cleanup_stale_aligned (ping_interval now : Int) {cm : ConnectionManager}
    (halign : KeysAligned cm) :
    KeysAligned (ConnectionManager.cleanup_stale_connections ping_interval now cm).2 := by
  unfold ConnectionManager.cleanup_stale_connections
  by_cases h : cm.connections.isEmpty = true
  · simpa [h] using halign
  · simp only [h, Bool.false_eq_true, not_false_eq_true, if_false]
    by_cases h2 : ((cm.connection_info.filter (fun p =>
        decide ((p.2.last_ping.getD p.2.connected_at) < now - ping_interval * 3))).map
          (fun p => p.1)).isEmpty = true
    · simpa [h2] using halign
    · simpa [h2] using ConnectionManager.cleanup_aligned _ halign

/-- Registry with one connection whose last-activity age at time 100 is
exactly 30 seconds, i.e. exactly 3 × a ping interval of 10. -/
def boundaryManager : ConnectionManager :=
  { connections := [("c1", wsOk)],
    connection_info := [("c1", infoAt "c1" 70)],
    total_connections := 1, close_attempts := [] }

/-- **C7 counterexample**: with `ping_interval = 10` (staleAfter = 3 × 10 = 30)
and `now = 100`, the single connection satisfies
`now − max(lastActivity, connectedAt) = 30 ≥ 30`, so the claim requires its
removal; `cleanup_stale_connections` keeps it (the code compares with strict
`<` against `now − staleAfter`) and reports 0 removed. -/
theorem cleanup_stale_boundary_not_removed :
    (100 : Int) - max ((infoAt "c1" 70).last_ping.getD (infoAt "c1" 70).connected_at)
        (infoAt "c1" 70).connected_at ≥ 10 * 3
    ∧ ConnectionManager.cleanup_stale_connections 10 100 boundaryManager
        = (0, boundaryManager)
    ∧ (ConnectionManager.cleanup_stale_connections 10 100 boundaryManager).2.get_connection_count
        = 1 := by
  refine ⟨by decide, rfl, rfl⟩

/-- **C7 amended**: `cleanup_stale_connections` (whose threshold is always
3 × pingInterval; the Python method takes no `staleAfter` argument) removes
exactly the connections whose last-activity age `now − (lastPing or
connectedAt)` is *strictly greater* than 3 × pingInterval — not `≥` as the
claim states — leaves every fresher connection untouched, and returns the
number removed. -/
theorem cleanup_stale_removes_strictly_older (ping_interval now : Int)
    (cm : ConnectionManager) (halign : KeysAligned cm)
    (hnodup : (cm.connection_info.map Prod.fst).Nodup) :
    (ConnectionManager.cleanup_stale_connections ping_interval now cm).1
      = (cm.connection_info.filter (fun p =>
          decide (now - (p.2.last_ping.getD p.2.connected_at) > ping_interval * 3))).length
    ∧ (ConnectionManager.cleanup_stale_connections ping_interval now cm).2.connection_info
      = cm.connection_info.filter (fun p =>
          decide (now - (p.2.last_ping.getD p.2.connected_at) ≤ ping_interval * 3))
    ∧ (ConnectionManager.cleanup_stale_connections ping_interval now cm).2.connections.map Prod.fst
      = (cm.connection_info.filter (fun p =>
          decide (now - (p.2.last_ping.getD p.2.connected_at) ≤ ping_interval * 3))).map Prod.fst
    ∧ ∀ p ∈ cm.connections,
        (∀ q ∈ cm.connection_info, q.1 = p.1 →
          now - (q.2.last_ping.getD q.2.connected_at) ≤ ping_interval * 3) →
        p ∈ (ConnectionManager.cleanup_stale_connections ping_interval now cm).2.connections := by
  have hflip : ∀ q : String × ConnectionInfo,
      (!(decide ((q.2.last_ping.getD q.2.connected_at) < now - ping_interval * 3)))
        = decide (now - (q.2.last_ping.getD q.2.connected_at) ≤ ping_interval * 3) := by
    intro q
    rw [← decide_not]
    exact decide_eq_decide.mpr (by omega)
  have hcount : ∀ l : List (String × ConnectionInfo),
      (l.filter (fun p =>
          decide ((p.2.last_ping.getD p.2.connected_at) < now - ping_interval * 3))).length
        = (l.filter (fun p =>
          decide (now - (p.2.last_ping.getD p.2.connected_at) > ping_interval * 3))).length := by
    intro l
    congr 1
    apply List.filter_congr
    intro q _
    exact decide_eq_decide.mpr (by omega)
  have hinfo_nil : cm.connections.isEmpty = true → cm.connection_info = [] := by
    intro h
    have h2 : cm.connection_info.map Prod.fst = ([] : List String) := by
      rw [← halign, List.isEmpty_iff.mp h]
      rfl
    exact List.map_eq_nil_iff.mp h2
  have hcount_res : (ConnectionManager.cleanup_stale_connections ping_interval now cm).1
      = (cm.connection_info.filter (fun p =>
          decide (now - (p.2.last_ping.getD p.2.connected_at) > ping_interval * 3))).length := by
    unfold ConnectionManager.cleanup_stale_connections
    by_cases h : cm.connections.isEmpty = true
    · simp [h, hinfo_nil h]
    · simp only [h, Bool.false_eq_true, not_false_eq_true, if_false]
      by_cases h2 : ((cm.connection_info.filter (fun p =>
          decide ((p.2.last_ping.getD p.2.connected_at) < now - ping_interval * 3))).map
            (fun p => p.1)).isEmpty = true
      · simp only [h2, if_true]
        rw [List.length_map]
        exact hcount cm.connection_info
      · simp only [h2, Bool.false_eq_true, not_false_eq_true, if_false]
        rw [List.length_map]
        exact hcount cm.connection_info
  have hinfo_res : (ConnectionManager.cleanup_stale_connections ping_interval now cm).2.connection_info
      = cm.connection_info.filter (fun p =>
          decide (now - (p.2.last_ping.getD p.2.connected_at) ≤ ping_interval * 3)) := by
    unfold ConnectionManager.cleanup_stale_connections
    by_cases h : cm.connections.isEmpty = true
    · simp [h, hinfo_nil h]
    · simp only [h, Bool.false_eq_true, not_false_eq_true, if_false]
      by_cases h2 : ((cm.connection_info.filter (fun p =>
          decide ((p.2.last_ping.getD p.2.connected_at) < now - ping_interval * 3))).map
            (fun p => p.1)).isEmpty = true
      · simp only [h2, if_true]
        have hnil : cm.connection_info.filter (fun p =>
            decide ((p.2.last_ping.getD p.2.connected_at) < now - ping_interval * 3)) = [] :=
          List.map_eq_nil_iff.mp (List.isEmpty_iff.mp h2)
        have hall : ∀ q ∈ cm.connection_info,
            (decide (now - (q.2.last_ping.getD q.2.connected_at) ≤ ping_interval * 3)) = true := by
          intro q hq
          rw [← hflip q]
          have hnq := List.filter_eq_nil_iff.mp hnil q hq
          simpa using hnq
        exact (List.filter_eq_self.mpr hall).symm
      · simp only [h2, Bool.false_eq_true, not_false_eq_true, if_false]
        rw [ConnectionManager.cleanup_info _ _ halign]
        have hstep : ∀ q ∈ cm.connection_info,
            (!(((cm.connection_info.filter (fun p =>
                decide ((p.2.last_ping.getD p.2.connected_at) < now - ping_interval * 3))).map
                  (fun p => p.1)).contains q.1))
              = decide (now - (q.2.last_ping.getD q.2.connected_at) ≤ ping_interval * 3) := by
          intro q hq
          have hc := keys_filter_contains_eq cm.connection_info
            (fun p => decide ((p.2.last_ping.getD p.2.connected_at) < now - ping_interval * 3))
            hnodup hq
          rw [hc]
          exact hflip q
        exact List.filter_congr hstep
  refine ⟨hcount_res, hinfo_res, ?_, ?_⟩
  · have halign2 := cleanup_stale_aligned ping_interval now halign
    rw [halign2, hinfo_res]
  · intro p hp hfresh
    unfold ConnectionManager.cleanup_stale_connections
    by_cases h : cm.connections.isEmpty = true
    · simp only [h, if_true]
      exact hp
    · simp only [h, Bool.false_eq_true, not_false_eq_true, if_false]
      by_cases h2 : ((cm.connection_info.filter (fun p =>
          decide ((p.2.last_ping.getD p.2.connected_at) < now - ping_interval * 3))).map
            (fun p => p.1)).isEmpty = true
      · simp only [h2, if_true]
        exact hp
      · simp only [h2, Bool.false_eq_true, not_false_eq_true, if_false]
        rw [ConnectionManager.cleanup_connections]
        apply List.mem_filter.mpr
        refine ⟨hp, ?_⟩
        have hnc : (((cm.connection_info.filter (fun p =>
            decide ((p.2.last_ping.getD p.2.connected_at) < now - ping_interval * 3))).map
              (fun p => p.1)).contains p.1) = false := by
          rw [Bool.eq_false_iff]
          intro hcon
          rcases List.mem_map.mp (List.elem_iff.mp hcon) with ⟨q, hq, hq1⟩
          have hqm := List.mem_filter.mp hq
          have hle := hfresh q hqm.1 hq1
          have hlt : (q.2.last_ping.getD q.2.connected_at) < now - ping_interval * 3 := by
            simpa using hqm.2
          omega
        simp only [hnc]
        rfl

/-- Registry with one connection of age 31 > 30 and one of age 5 at `now = 100`
with `ping_interval = 10`. -/
def mixedAgeManager : ConnectionManager :=
  { connections := [("old", wsOk), ("new", wsOk)],
    connection_info := [("old", infoAt "old" 69), ("new", infoAt "new" 95)],
    total_connections := 2, close_attempts := [] }

/-- Witness for amended C7: at `ping_interval = 10`, `now = 100`, the strictly
older connection is removed and the fresher one kept. -/
theorem cleanup_stale_removes_strictly_older_witness :
    (ConnectionManager.cleanup_stale_connections 10 100 mixedAgeManager).1
      = (mixedAgeManager.connection_info.filter (fun p =>
          decide (100 - (p.2.last_ping.getD p.2.connected_at) > 10 * 3))).length
    ∧ (ConnectionManager.cleanup_stale_connections 10 100 mixedAgeManager).2.connection_info
      = mixedAgeManager.connection_info.filter (fun p =>
          decide (100 - (p.2.last_ping.getD p.2.connected_at) ≤ 10 * 3))
    ∧ (ConnectionManager.cleanup_stale_connections 10 100 mixedAgeManager).2.connections.map Prod.fst
      = (mixedAgeManager.connection_info.filter (fun p =>
          decide (100 - (p.2.last_ping.getD p.2.connected_at) ≤ 10 * 3))).map Prod.fst
    ∧ ∀ p ∈ mixedAgeManager.connections,
        (∀ q ∈ mixedAgeManager.connection_info, q.1 = p.1 →
          100 - (q.2.last_ping.getD q.2.connected_at) ≤ 10 * 3) →
        p ∈ (ConnectionManager.cleanup_stale_connections 10 100 mixedAgeManager).2.connections :=
  cleanup_stale_removes_strictly_older 10 100 mixedAgeManager rfl (by decide)

/-! ### Per-operation structure lemmas for the registry invariants -/

namespace ConnectionManager

theorem connect_ok_effects {max_connections : Nat} {websocket : WebSocketHandle}
    {client_id : String} {now : Int} {cm cm' : ConnectionManager}
    (hok : connect max_connections websocket client_id now cm = Except.ok cm') :
    cm'.connections.length = cm.connections.length + 1
    ∧ cm'.total_connections = cm.total_connections + 1
    ∧ cm'.connections = cm.connections ++ [(client_id, websocket)]
    ∧ cm'.connection_info = cm.connection_info ++ [(client_id,
        { client_id := client_id, connected_at := now, last_ping := none,
          user_agent := websocket.userAgent })] := by
  unfold connect at hok
  split_ifs at hok <;> cases hok <;> simp

theorem disconnect_total (client_id : String) (cm : ConnectionManager) :
    (disconnect client_id cm).total_connections = cm.total_connections := by
  unfold disconnect
  by_cases h : cm.hasClient client_id = true <;> simp [h]

theorem disconnect_length_le (client_id : String) (cm : ConnectionManager) :
    (disconnect client_id cm).connections.length ≤ cm.connections.length := by
  unfold disconnect
  by_cases h : cm.hasClient client_id = true
  · simp only [h, if_true]
    exact List.length_filter_le _ _
  · simp [h]

theorem disconnect_aligned (client_id : String) {cm : ConnectionManager}
    (halign : KeysAligned cm) : KeysAligned (disconnect client_id cm) := by
  unfold disconnect
  by_cases h : cm.hasClient client_id = true
  · simp only [h, if_true]
    unfold KeysAligned
    rw [map_fst_filter_ne, map_fst_filter_ne]
    exact congrArg _ halign
  · simpa [h] using halign

theorem cleanup_stale_total (ping_interval now : Int) (cm : ConnectionManager) :
    (cleanup_stale_connections ping_interval now cm).2.total_connections
      = cm.total_connections := by
  unfold cleanup_stale_connections
  dsimp only
  split
  · rfl
  · split
    · rfl
    · exact cleanup_total _ _

theorem cleanup_stale_length_le (ping_interval now : Int) (cm : ConnectionManager) :
    (cleanup_stale_connections ping_interval now cm).2.connections.length
      ≤ cm.connections.length := by
  unfold cleanup_stale_connections
  dsimp only
  split
  · exact Nat.le_refl _
  · split
    · exact Nat.le_refl _
    · exact cleanup_length_le _ _

theorem ping_all_total (now : Int) (cm : ConnectionManager) :
    (ping_all_connections now cm).2.total_connections = cm.total_connections := by
  unfold ping_all_connections
  split
  · rfl
  · exact broadcast_total _ _ _

theorem ping_all_length_le (now : Int) (cm : ConnectionManager) :
    (ping_all_connections now cm).2.connections.length ≤ cm.connections.length := by
  unfold ping_all_connections
  split
  · exact Nat.le_refl _
  · exact broadcast_length_le _ _ _

theorem ping_all_aligned (now : Int) {cm : ConnectionManager}
    (halign : KeysAligned cm) : KeysAligned (ping_all_connections now cm).2 := by
  unfold ping_all_connections
  split
  · exact halign
  · exact broadcast_aligned _ _ halign

theorem shutdown_all_total (now : Int) (cm : ConnectionManager) :
    (shutdown_all_connections now cm).total_connections = cm.total_connections := by
  unfold shutdown_all_connections
  dsimp only
  split
  · rfl
  · rw [cleanup_total, broadcast_total]

theorem shutdown_all_length_le (now : Int) (cm : ConnectionManager) :
    (shutdown_all_connections now cm).connections.length ≤ cm.connections.length := by
  unfold shutdown_all_connections
  dsimp only
  split
  · exact Nat.le_refl _
  · exact Nat.le_trans (cleanup_length_le _ _) (broadcast_length_le _ _ _)

theorem shutdown_all_aligned (now : Int) {cm : ConnectionManager}
    (halign : KeysAligned cm) : KeysAligned (shutdown_all_connections now cm) := by
  unfold shutdown_all_connections
  dsimp only
  split
  · exact halign
  · exact cleanup_aligned _ (broadcast_aligned _ _ halign)

end ConnectionManager

theorem applyOp_connect_ok {max_connections : Nat} {ping_interval : Int}
    {websocket : WebSocketHandle} {client_id : String} {now : Int}
    {cm cm' : ConnectionManager}
    (hc : ConnectionManager.connect max_connections websocket client_id now cm
      = Except.ok cm') :
    applyOp max_connections ping_interval (MgrOp.connectOp websocket client_id now) cm
      = cm' := by
  simp [applyOp, hc]

theorem applyOp_connect_error {max_connections : Nat} {ping_interval : Int}
    {websocket : WebSocketHandle} {client_id : String} {now : Int}
    {cm : ConnectionManager} {e : ConnectError}
    (hc : ConnectionManager.connect max_connections websocket client_id now cm
      = Except.error e) :
    applyOp max_connections ping_interval (MgrOp.connectOp websocket client_id now) cm
      = cm := by
  simp [applyOp, hc]

theorem applyOp_aligned (max_connections : Nat) (ping_interval : Int) (op : MgrOp)
    {cm : ConnectionManager} (halign : KeysAligned cm) :
    KeysAligned (applyOp max_connections ping_interval op cm) := by
  cases op with
  | connectOp websocket client_id now =>
    cases hc : ConnectionManager.connect max_connections websocket client_id now cm with
    | ok cm' =>
      rw [applyOp_connect_ok hc]
      rcases ConnectionManager.connect_ok_effects hc with ⟨-, -, hconn, hinfo⟩
      unfold KeysAligned
      rw [hconn, hinfo]
      simp
      exact halign
    | error e =>
      rw [applyOp_connect_error hc]
      exact halign
  | disconnectOp client_id => exact ConnectionManager.disconnect_aligned client_id halign
  | broadcastOp message now => exact ConnectionManager.broadcast_aligned message now halign
  | cleanupStaleOp now => exact cleanup_stale_aligned ping_interval now halign
  | pingAllOp now => exact ConnectionManager.ping_all_aligned now halign
  | shutdownAllOp now => exact ConnectionManager.shutdown_all_aligned now halign

theorem reachable_aligned (max_connections : Nat) (ping_interval : Int)
    (cm : ConnectionManager) (h : Reachable max_connections ping_interval cm) :
    KeysAligned cm := by
  induction h with
  | init => rfl
  | step cm0 op hr ih => exact applyOp_aligned max_connections ping_interval op ih

theorem shrink_step {cm cm' : ConnectionManager}
    (hlen : cm'.connections.length ≤ cm.connections.length)
    (htot : cm'.total_connections = cm.total_connections)
    (ih : cm.connections.length ≤ cm.total_connections) :
    cm'.connections.length ≤ cm'.total_connections := by omega

/-- **C9**: `totalEverConnected` (`_total_connections`) never decreases under
any public operation, stays fixed under every operation other than `connect`,
changes only by +1 under a successful `connect` (and not at all under a failed
one), and in every reachable registry state dominates the active connection
count. -/
theorem total_ever_monotone (max_connections : Nat) (ping_interval : Int) :
    (∀ cm op, cm.get_total_connections
        ≤ (applyOp max_connections ping_interval op cm).get_total_connections)
    ∧ (∀ cm op, (∀ websocket client_id now, op ≠ MgrOp.connectOp websocket client_id now) →
        (applyOp max_connections ping_interval op cm).get_total_connections
          = cm.get_total_connections)
    ∧ (∀ cm websocket client_id now cm',
        ConnectionManager.connect max_connections websocket client_id now cm = Except.ok cm' →
        cm'.get_total_connections = cm.get_total_connections + 1)
    ∧ (∀ cm websocket client_id now e,
        ConnectionManager.connect max_connections websocket client_id now cm = Except.error e →
        (applyOp max_connections ping_interval
            (MgrOp.connectOp websocket client_id now) cm).get_total_connections
          = cm.get_total_connections)
    ∧ ∀ cm, Reachable max_connections ping_interval cm →
        cm.get_connection_count ≤ cm.get_total_connections := by
  have heq : ∀ cm op, (∀ websocket client_id now, op ≠ MgrOp.connectOp websocket client_id now) →
      (applyOp max_connections ping_interval op cm).total_connections
        = cm.total_connections := by
    intro cm op hne
    cases op with
    | connectOp websocket client_id now => exact absurd rfl (hne websocket client_id now)
    | disconnectOp client_id => exact ConnectionManager.disconnect_total client_id cm
    | broadcastOp message now => exact ConnectionManager.broadcast_total message now cm
    | cleanupStaleOp now => exact ConnectionManager.cleanup_stale_total ping_interval now cm
    | pingAllOp now => exact ConnectionManager.ping_all_total now cm
    | shutdownAllOp now => exact ConnectionManager.shutdown_all_total now cm
  have hmono : ∀ cm op, cm.total_connections
      ≤ (applyOp max_connections ping_interval op cm).total_connections := by
    intro cm op
    cases op with
    | connectOp websocket client_id now =>
      cases hc : ConnectionManager.connect max_connections websocket client_id now cm with
      | ok cm' =>
        rw [applyOp_connect_ok hc]
        have htot := (ConnectionManager.connect_ok_effects hc).2.1
        omega
      | error e =>
        rw [applyOp_connect_error hc]
    | disconnectOp client_id =>
      exact Nat.le_of_eq (ConnectionManager.disconnect_total client_id cm).symm
    | broadcastOp message now =>
      exact Nat.le_of_eq (ConnectionManager.broadcast_total message now cm).symm
    | cleanupStaleOp now =>
      exact Nat.le_of_eq (ConnectionManager.cleanup_stale_total ping_interval now cm).symm
    | pingAllOp now =>
      exact Nat.le_of_eq (ConnectionManager.ping_all_total now cm).symm
    | shutdownAllOp now =>
      exact Nat.le_of_eq (ConnectionManager.shutdown_all_total now cm).symm
  have hinv : ∀ cm, Reachable max_connections ping_interval cm →
      cm.connections.length ≤ cm.total_connections := by
    intro cm h
    induction h with
    | init => exact Nat.le_refl 0
    | step cm0 op hr ih =>
      cases op with
      | connectOp websocket client_id now =>
        cases hc : ConnectionManager.connect max_connections websocket client_id now cm0 with
        | ok cm' =>
          rw [applyOp_connect_ok hc]
          rcases ConnectionManager.connect_ok_effects hc with ⟨hlen, htot, -, -⟩
          omega
        | error e =>
          rw [applyOp_connect_error hc]
          exact ih
      | disconnectOp client_id =>
        exact shrink_step (ConnectionManager.disconnect_length_le client_id cm0)
          (ConnectionManager.disconnect_total client_id cm0) ih
      | broadcastOp message now =>
        exact shrink_step (ConnectionManager.broadcast_length_le message now cm0)
          (ConnectionManager.broadcast_total message now cm0) ih
      | cleanupStaleOp now =>
        exact shrink_step (ConnectionManager.cleanup_stale_length_le ping_interval now cm0)
          (ConnectionManager.cleanup_stale_total ping_interval now cm0) ih
      | pingAllOp now =>
        exact shrink_step (ConnectionManager.ping_all_length_le now cm0)
          (ConnectionManager.ping_all_total now cm0) ih
      | shutdownAllOp now =>
        exact shrink_step (ConnectionManager.shutdown_all_length_le now cm0)
          (ConnectionManager.shutdown_all_total now cm0) ih
  exact ⟨hmono, heq,
    fun cm websocket client_id now cm' hok =>
      (ConnectionManager.connect_ok_effects hok).2.1,
    fun cm websocket client_id now e he => by
      show (applyOp _ _ _ cm).total_connections = cm.total_connections
      simp [applyOp, he],
    hinv⟩

/-- Witness for C9: monotonicity at a successful connect step from the empty
registry, equality at a disconnect, and the invariant at a reachable state. -/
theorem total_ever_monotone_witness :
    ConnectionManager.init.get_total_connections
      ≤ (applyOp 1000 30 (MgrOp.connectOp wsOk "c1" 0) ConnectionManager.init).get_total_connections
    ∧ (applyOp 1000 30 (MgrOp.disconnectOp "c1") ConnectionManager.init).get_total_connections
        = ConnectionManager.init.get_total_connections
    ∧ (applyOp 1000 30 (MgrOp.connectOp wsOk "c1" 0)
          ConnectionManager.init).get_connection_count
        ≤ (applyOp 1000 30 (MgrOp.connectOp wsOk "c1" 0)
          ConnectionManager.init).get_total_connections :=
  ⟨(total_ever_monotone 1000 30).1 ConnectionManager.init (MgrOp.connectOp wsOk "c1" 0),
   (total_ever_monotone 1000 30).2.1 ConnectionManager.init (MgrOp.disconnectOp "c1")
     (fun websocket client_id now h => MgrOp.noConfusion h),
   (total_ever_monotone 1000 30).2.2.2.2 _
     (Reachable.step ConnectionManager.init (MgrOp.connectOp wsOk "c1" 0) Reachable.init)⟩

/-- **C10**: in every reachable registry state the handle dict and the info
dict hold exactly the same keys; hence `get_connection_info` answers `some`
exactly for the active ids and `get_all_connection_info` has exactly
`count()` entries. -/
theorem registry_dicts_aligned (max_connections : Nat) (ping_interval : Int)
    (cm : ConnectionManager) (h : Reachable max_connections ping_interval cm) :
    cm.connections.map Prod.fst = cm.connection_info.map Prod.fst
    ∧ (∀ client_id, (ConnectionManager.get_connection_info client_id cm).isSome
        ↔ client_id ∈ cm.connections.map Prod.fst)
    ∧ (ConnectionManager.get_all_connection_info cm).length = cm.get_connection_count := by
  have halign : KeysAligned cm := reachable_aligned max_connections ping_interval cm h
  refine ⟨halign, ?_, ?_⟩
  · intro client_id
    unfold ConnectionManager.get_connection_info
    rw [halign]
    simp only [Option.isSome_map', List.find?_isSome, beq_iff_eq, List.mem_map]
  · show cm.connection_info.length = cm.connections.length
    have hlen := congrArg List.length halign
    simpa using hlen.symm

/-- Witness for C10 at the reachable state obtained by one successful connect. -/
theorem registry_dicts_aligned_witness :
    (applyOp 1000 30 (MgrOp.connectOp wsOk "c1" 0)
        ConnectionManager.init).connections.map Prod.fst
      = (applyOp 1000 30 (MgrOp.connectOp wsOk "c1" 0)
        ConnectionManager.init).connection_info.map Prod.fst
    ∧ (∀ client_id, (ConnectionManager.get_connection_info client_id
          (applyOp 1000 30 (MgrOp.connectOp wsOk "c1" 0) ConnectionManager.init)).isSome
        ↔ client_id ∈ (applyOp 1000 30 (MgrOp.connectOp wsOk "c1" 0)
            ConnectionManager.init).connections.map Prod.fst)
    ∧ (ConnectionManager.get_all_connection_info
          (applyOp 1000 30 (MgrOp.connectOp wsOk "c1" 0) ConnectionManager.init)).length
        = (applyOp 1000 30 (MgrOp.connectOp wsOk "c1" 0)
            ConnectionManager.init).get_connection_count :=
  registry_dicts_aligned 1000 30 _
    (Reachable.step ConnectionManager.init (MgrOp.connectOp wsOk "c1" 0) Reachable.init)

/-! ### Scheduler, signal handler and graceful shutdown claims -/

theorem sched_frozen {a b : NotificationService}
    (h : Relation.ReflTransGen SchedulerStep a b) (hrun : a.is_running = false) :
    b.is_running = false ∧ b.notification_counter = a.notification_counter := by
  induction h with
  | refl => exact ⟨hrun, rfl⟩
  | tail hab hstep ih =>
    rcases ih with ⟨hr, hc⟩
    cases hstep with
    | loopSend h1 h2 =>
      rw [hr] at h1
      cases h1
    | loopExit h1 h2 => exact ⟨hr, hc⟩
    | loopCrash h1 h2 =>
      rw [hr] at h1
      cases h1

theorem stop_not_running (u : NotificationService) (hu : u.is_running = false) :
    stop_periodic_notifications u = u := by
  unfold stop_periodic_notifications
  simp [hu]

/-- **C4**: after `stop_periodic_notifications` returns, the loop flag is down
and the periodic task has been cancelled and awaited, so no further iteration
of `_periodic_notification_loop` can run: along every sequence of autonomous
loop steps taken after the call returns, `_notification_counter` never
increases.  `stop` is also idempotent and a no-op when the scheduler is not
running. -/
theorem stop_periodic_halts (s t : NotificationService)
    (htrace : Relation.ReflTransGen SchedulerStep (stop_periodic_notifications s) t) :
    t.notification_counter = s.notification_counter
    ∧ (stop_periodic_notifications s).is_running = false
    ∧ stop_periodic_notifications (stop_periodic_notifications s)
        = stop_periodic_notifications s
    ∧ (s.is_running = false → stop_periodic_notifications s = s) := by
  have hrun : (stop_periodic_notifications s).is_running = false := by
    unfold stop_periodic_notifications
    by_cases h : s.is_running = true
    · simp [h]
    · have h2 : s.is_running = false := Bool.not_eq_true _ ▸ h
      simp [h2]
  have hcnt : (stop_periodic_notifications s).notification_counter
      = s.notification_counter := by
    unfold stop_periodic_notifications
    by_cases h : s.is_running = true
    · simp [h]
    · have h2 : s.is_running = false := Bool.not_eq_true _ ▸ h
      simp [h2]
  refine ⟨?_, hrun, stop_not_running _ hrun, stop_not_running s⟩
  rw [(sched_frozen htrace hrun).2, hcnt]

/-- Witness for C4 at a running scheduler with counter 5 and the empty
post-stop trace (the only one available: no loop step is enabled after stop). -/
theorem stop_periodic_halts_witness :
    (stop_periodic_notifications
        { is_running := true, task_alive := true, notification_counter := 5 }).notification_counter
      = ({ is_running := true, task_alive := true, notification_counter := 5 }
          : NotificationService).notification_counter
    ∧ (stop_periodic_notifications
        { is_running := true, task_alive := true, notification_counter := 5 }).is_running = false
    ∧ stop_periodic_notifications (stop_periodic_notifications
        { is_running := true, task_alive := true, notification_counter := 5 })
        = stop_periodic_notifications
            { is_running := true, task_alive := true, notification_counter := 5 }
    ∧ (({ is_running := true, task_alive := true, notification_counter := 5 }
          : NotificationService).is_running = false →
        stop_periodic_notifications
            { is_running := true, task_alive := true, notification_counter := 5 }
          = { is_running := true, task_alive := true, notification_counter := 5 }) :=
  stop_periodic_halts
    { is_running := true, task_alive := true, notification_counter := 5 }
    (stop_periodic_notifications
      { is_running := true, task_alive := true, notification_counter := 5 })
    Relation.ReflTransGen.refl

/-- **C5**: a termination signal received while a shutdown is already
requested makes `_signal_handler` call `sys.exit(1)` immediately — a non-zero
status, bypassing all phases — while a signal in the idle state only records
the request and schedules the graceful sequence; only that first signal starts
it. -/
theorem second_signal_forces_exit (now : Int) (h : ShutdownHandler) :
    (h.shutdown_requested = true → signal_handler now h = SignalOutcome.exited 1)
    ∧ (∀ st, signal_handler now h = SignalOutcome.exited st → st ≠ 0)
    ∧ (h.shutdown_requested = false →
        signal_handler now h = SignalOutcome.scheduledShutdown
          { shutdown_requested := true, shutdown_start_time := some now }) := by
  refine ⟨?_, ?_, ?_⟩
  · intro hreq
    simp [signal_handler, hreq]
  · intro st hst
    unfold signal_handler at hst
    by_cases hreq : h.shutdown_requested = true
    · rw [if_pos hreq] at hst
      injection hst with h1
      omega
    · rw [if_neg hreq] at hst
      cases hst
  · intro hreq
    simp [signal_handler, hreq]

/-- Witness for C5: with a shutdown already requested, the handler exits with
status 1, which is non-zero. -/
theorem second_signal_forces_exit_witness :
    signal_handler 7 { shutdown_requested := true, shutdown_start_time := some 0 }
      = SignalOutcome.exited 1
    ∧ (1 : Nat) ≠ 0 :=
  ⟨(second_signal_forces_exit 7
      { shutdown_requested := true, shutdown_start_time := some 0 }).1 rfl,
   (second_signal_forces_exit 7
      { shutdown_requested := true, shutdown_start_time := some 0 }).2.1 1
     ((second_signal_forces_exit 7
        { shutdown_requested := true, shutdown_start_time := some 0 }).1 rfl)⟩

/-- **C6**: once a shutdown has been requested, `graceful_shutdown` always
reaches process exit with status 0: whatever subset of the four internal
phases raises, the `except` arm absorbs the error and the `finally` arm runs
`sys.exit(0)`. -/
theorem graceful_shutdown_exits_zero (f : PhaseFaults) (h : ShutdownHandler)
    (hreq : h.shutdown_requested = true) :
    (graceful_shutdown f h).1 = ShutdownOutcome.exited 0 := by
  unfold graceful_shutdown
  rw [hreq]
  cases hr : run_shutdown_phases f <;> simp [hr]

/-- Witness for C6: all four phases raising still ends in `sys.exit(0)`. -/
theorem graceful_shutdown_exits_zero_witness :
    (graceful_shutdown
        { stop_services_raises := true, notify_clients_raises := true,
          wait_for_connections_raises := true, force_close_raises := true }
        { shutdown_requested := true, shutdown_start_time := some 0 }).1
      = ShutdownOutcome.exited 0 :=
  graceful_shutdown_exits_zero
    { stop_services_raises := true, notify_clients_raises := true,
      wait_for_connections_raises := true, force_close_raises := true }
    { shutdown_requested := true, shutdown_start_time := some 0 } rfl

/-! ### Notification normalization claim -/

/-- Payload dict that already carries an `"id"` but neither `"type"` nor
`"timestamp"`. -/
def idOnlyPayload : JValue := JValue.jobj [("id", JValue.jstr "m-1")]

/-- **C8 counterexample**: `send_notification` forwards a dict that has an
`"id"` key completely unchanged — the missing `type` and `timestamp` are *not*
assigned (the code normalizes only when the payload is not a dict or has no
`"id"`), refuting "assigning id, timestamp, and type whenever they are
absent". -/
theorem send_notification_skips_envelope_fill :
    normalize_message "fresh" 50 idOnlyPayload = [("id", JValue.jstr "m-1")]
    ∧ (normalize_message "fresh" 50 idOnlyPayload).any (fun p => p.1 == "timestamp") = false
    ∧ (normalize_message "fresh" 50 idOnlyPayload).any (fun p => p.1 == "type") = false
    ∧ send_notification "fresh" 50 false idOnlyPayload ConnectionManager.init
        = ConnectionManager.broadcast (normalize_message "fresh" 50 idOnlyPayload) 50
            ConnectionManager.init :=
  ⟨rfl, rfl, rfl, rfl⟩

/-- **C8 amended**: `send_notification` wraps the payload in the standard
envelope — assigning `id`, `type`, `timestamp`, `sender` — exactly when the
payload is not a dict or lacks an `"id"` key; a dict that already has an
`"id"` is delegated to `Registry.broadcast` unchanged; and when anything in
the protected block raises, the call logs and returns 0 instead of
propagating. -/
theorem send_notification_envelope (fresh_id : String) (now : Int) (message : JValue)
    (cm : ConnectionManager) :
    (∀ entries, message = JValue.jobj entries →
      entries.any (fun p => p.1 == "id") = false →
      normalize_message fresh_id now message
        = model_dump { id := fresh_id, type := "notification", timestamp := now,
                       data := entries, sender := "server" })
    ∧ (∀ entries, message = JValue.jobj entries →
      entries.any (fun p => p.1 == "id") = true →
      normalize_message fresh_id now message = entries)
    ∧ ((∀ entries, message ≠ JValue.jobj entries) →
      normalize_message fresh_id now message
        = model_dump { id := fresh_id, type := "notification", timestamp := now,
                       data := [("message", JValue.jstr (pyStr message))],
                       sender := "server" })
    ∧ send_notification fresh_id now false message cm
        = ConnectionManager.broadcast (normalize_message fresh_id now message) now cm
    ∧ send_notification fresh_id now true message cm = (0, cm) := by
  refine ⟨?_, ?_, ?_, rfl, rfl⟩
  · intro entries he hid
    subst he
    simp [normalize_message, hid]
  · intro entries he hid
    subst he
    simp [normalize_message, hid]
  · intro hne
    cases message with
    | jobj entries => exact absurd rfl (hne entries)
    | jstr s => rfl
    | jnum n => rfl

/-- Witness for amended C8: a dict without an id gets the full envelope, and a
raising block yields 0. -/
theorem send_notification_envelope_witness :
    normalize_message "u1" 7 (JValue.jobj [("k", JValue.jstr "v")])
      = model_dump { id := "u1", type := "notification", timestamp := 7,
                     data := [("k", JValue.jstr "v")], sender := "server" }
    ∧ send_notification "u1" 7 true (JValue.jobj [("k", JValue.jstr "v")])
        ConnectionManager.init = (0, ConnectionManager.init) :=
  ⟨(send_notification_envelope "u1" 7 (JValue.jobj [("k", JValue.jstr "v")])
      ConnectionManager.init).1 [("k", JValue.jstr "v")] rfl rfl,
   (send_notification_envelope "u1" 7 (JValue.jobj [("k", JValue.jstr "v")])
      ConnectionManager.init).2.2.2.2⟩

end WebSocketServer
